import Mathlib

/-!
Shallow embedding of `music-metadata-cleaner` (src/src/lib.rs).

Strings are modelled as `List Char`.  The Rust code applies `Regex.replace_all`
with a handful of fixed patterns; each pattern is embedded as an executable
matcher `List Char → Option Nat` returning the length of the (leftmost-first,
greedy) match starting at the head of the list, and `replaceAll` scans the
list left to right exactly as `Regex.replace_all` does (all the patterns here
match at least one character, so the empty-match rule of `replace_all` never
fires).

Character classes: the POSIX classes `[[:punct:]]` and `[[:space:]]` used by
the source are ASCII-only, embedded exactly.  The source's `\d` is Unicode
`\p{Nd}`; it is embedded as the ASCII digits, which agrees with `\p{Nd}` on
every ASCII input.  The case-insensitive literals `mp3` and `kbps` use simple
case folding, so besides the ASCII case pairs, `k` also matches the Kelvin
sign U+212A and `s` matches the long s U+017F; these are included.

A careful note on the bitrate pattern
`[\(|[[:punct:]]|[[:space:]]]?(?i)\d+[[:space:]]]*kbps[...]?`:
after `\d+` the fragment `[[:space:]]]*` parses as the character class
`[[:space:]]` (exactly one whitespace character, no quantifier) followed by a
literal `]` repeated zero or more times — the `*` attaches to the stray `]`,
not to the whitespace class.  So the compiled pattern requires exactly one
whitespace character between the digits and `kbps`.
-/

namespace MusicMeta

/-- ASCII `[[:punct:]]`: `!`..`/`, `:`..`@`, `[`..`` ` ``, `{`..`~`. -/
def isPunctChar (c : Char) : Bool :=
  (33 ≤ c.toNat && c.toNat ≤ 47) || (58 ≤ c.toNat && c.toNat ≤ 64) ||
  (91 ≤ c.toNat && c.toNat ≤ 96) || (123 ≤ c.toNat && c.toNat ≤ 126)

/-- ASCII `[[:space:]]`: space, tab, newline, vertical tab, form feed, carriage return. -/
def isSpaceChar (c : Char) : Bool :=
  c = ' ' || c = '\t' || c = '\n' || c = '\x0b' || c = '\x0c' || c = '\r'

/-- ASCII decimal digit (the source's `\d` restricted to ASCII). -/
def isDigitChar (c : Char) : Bool :=
  '0' ≤ c && c ≤ '9'

/-- The class `[\(|[[:punct:]]|[[:space:]]]`: `(` and `|` are punctuation, so
this is punctuation or whitespace. -/
def isFrameChar (c : Char) : Bool :=
  isPunctChar c || isSpaceChar c

/-- Case-insensitive `m` under simple case folding. -/
def isM (c : Char) : Bool := c = 'm' || c = 'M'

/-- Case-insensitive `p` under simple case folding. -/
def isP (c : Char) : Bool := c = 'p' || c = 'P'

/-- Case-insensitive `k` under simple case folding (includes the Kelvin sign). -/
def isK (c : Char) : Bool := c = 'k' || c = 'K' || c.toNat = 0x212A

/-- Case-insensitive `b` under simple case folding. -/
def isB (c : Char) : Bool := c = 'b' || c = 'B'

/-- Case-insensitive `s` under simple case folding (includes long s U+017F). -/
def isS (c : Char) : Bool := c = 's' || c = 'S' || c.toNat = 0x017F

/-- Fuel-indexed scan for `Regex.replace_all` with replacement `" "`: at the
leftmost position where the pattern matches, emit a space, skip the match, and
continue after it.  `m l` returns the length of the greedy match starting at
the head of `l` (always ≥ 1 for the patterns used here), so every step shortens
the list and fuel `l.length` is always enough; the fuel only makes the
recursion structural. -/
def replaceAllAux (m : List Char → Option Nat) : Nat → List Char → List Char
  | _, [] => []
  | 0, l => l
  | fuel + 1, c :: rest =>
    match m (c :: rest) with
    | some n => ' ' :: replaceAllAux m fuel (rest.drop (n - 1))
    | none => c :: replaceAllAux m fuel rest

/-- Rust `Regex.replace_all` with replacement `" "`. -/
def replaceAll (m : List Char → Option Nat) (l : List Char) : List Char :=
  replaceAllAux m l.length l

/-- Core of `YEAR_REGEX` after the optional leading class:
`(?:19|20)[0-9]{2}[\)|[[:punct:]]]` — a length-5 match. -/
def yearCore : List Char → Option Nat
  | a :: b :: c :: d :: e :: _ =>
    if ((a = '1' && b = '9') || (a = '2' && b = '0')) && isDigitChar c &&
        isDigitChar d && isPunctChar e then some 5 else none
  | _ => none

/-- Greedy match of `YEAR_REGEX = [\(|[[:punct:]]]?(?:19|20)[0-9]{2}[\)|[[:punct:]]]`
starting at the head of the list.  The leading class is optional and greedy:
try consuming a punctuation character first, else match it empty. -/
def yearMatchAt : List Char → Option Nat
  | [] => none
  | c :: rest =>
    if isPunctChar c then
      match yearCore rest with
      | some n => some (n + 1)
      | none => yearCore (c :: rest)
    else yearCore (c :: rest)

/-- Core of `MP3_REGEX` after the optional leading class:
`(?i)mp3[\)|[[:punct:]]|[[:space:]]]?` with greedy optional trailing class. -/
def mp3Core : List Char → Option Nat
  | a :: b :: c :: rest =>
    if isM a && isP b && c = '3' then
      match rest with
      | d :: _ => if isFrameChar d then some 4 else some 3
      | [] => some 3
    else none
  | _ => none

/-- Greedy match of `MP3_REGEX = [\(|[[:punct:]]|[[:space:]]]?(?i)mp3[...]?`
starting at the head of the list. -/
def mp3MatchAt : List Char → Option Nat
  | [] => none
  | c :: rest =>
    if isFrameChar c then
      match mp3Core rest with
      | some n => some (n + 1)
      | none => mp3Core (c :: rest)
    else mp3Core (c :: rest)

/-- Match `kbps` case-insensitively followed by the greedy optional trailing
class `[\)|[[:punct:]]|[[:space:]]]?`; returns total length consumed. -/
def kbpsTail : List Char → Option Nat
  | a :: b :: c :: d :: rest =>
    if isK a && isB b && isP c && isS d then
      match rest with
      | e :: _ => if isFrameChar e then some 5 else some 4
      | [] => some 4
    else none
  | _ => none

/-- Core of `BITRATE_REGEX` after the optional leading class:
`(?i)\d+[[:space:]]]*kbps[...]?` — one or more digits (greedy), then exactly
one whitespace character, then zero or more literal `]`, then `kbps` and the
optional trailing class.  Greedy maximal munch is exact here: a digit is never
a whitespace character and `]` never starts `kbps`, so backtracking on `\d+`
or `]*` can never succeed where maximal munch fails. -/
def bitrateCore (l : List Char) : Option Nat :=
  let digits := l.takeWhile isDigitChar
  if digits.isEmpty then none
  else
    match l.drop digits.length with
    | s :: rest =>
      if isSpaceChar s then
        let brackets := rest.takeWhile (fun c => c = ']')
        match kbpsTail (rest.drop brackets.length) with
        | some n => some (digits.length + 1 + brackets.length + n)
        | none => none
      else none
    | [] => none

/-- Greedy match of `BITRATE_REGEX` starting at the head of the list. -/
def bitrateMatchAt : List Char → Option Nat
  | [] => none
  | c :: rest =>
    if isFrameChar c then
      match bitrateCore rest with
      | some n => some (n + 1)
      | none => bitrateCore (c :: rest)
    else bitrateCore (c :: rest)

/-- Rust `fn remove_year_annotation`: `YEAR_REGEX.replace_all(dirty, " ")`. -/
def remove_year_annotation (dirty : List Char) : List Char :=
  replaceAll yearMatchAt dirty

/-- Rust `fn remove_bitrate_annotation`: `BITRATE_REGEX.replace_all(dirty, " ")`. -/
def remove_bitrate_annotation (dirty : List Char) : List Char :=
  replaceAll bitrateMatchAt dirty

/-- Rust `fn remove_mp3_format_label`: `MP3_REGEX.replace_all(dirty, " ")`. -/
def remove_mp3_format_label (dirty : List Char) : List Char :=
  replaceAll mp3MatchAt dirty

/-- State-passing form of `REDUNDANT_WHITESPACE_REGEX.replace_all(dirty, " ")`:
each maximal run of whitespace becomes a single space.  `prevSpace` records
whether the previous character was whitespace (i.e. we are inside a run whose
single replacement space has already been emitted). -/
def collapseWsAux : Bool → List Char → List Char
  | _, [] => []
  | prevSpace, c :: rest =>
    if isSpaceChar c then
      if prevSpace then collapseWsAux true rest
      else ' ' :: collapseWsAux true rest
    else c :: collapseWsAux false rest

/-- Stage `REDUNDANT_WHITESPACE_REGEX.replace_all(dirty, " ")`. -/
def collapseWs (l : List Char) : List Char :=
  collapseWsAux false l

/-- Stage `BEGINNING_WHITESPACE_REGEX.replace_all(dirty, "")`: strip leading whitespace. -/
def stripLeadWs (l : List Char) : List Char :=
  l.dropWhile isSpaceChar

/-- Stage `ENDING_WHITESPACE_REGEX.replace_all(dirty, "")`: strip trailing whitespace. -/
def stripTrailWs (l : List Char) : List Char :=
  (l.reverse.dropWhile isSpaceChar).reverse

/-- Rust `fn remove_redundant_whitespace`: collapse runs, strip the beginning, strip
the end, in that order. -/
def remove_redundant_whitespace (dirty : List Char) : List Char :=
  stripTrailWs (stripLeadWs (collapseWs dirty))

/-- Rust `pub fn fix_common`: year removal, then mp3 removal, then bitrate removal,
then whitespace normalization. -/
def fix_common (dirty : List Char) : List Char :=
  remove_redundant_whitespace
    ( remove_bitrate_annotation ( remove_mp3_format_label ( remove_year_annotation dirty)))

/-- Rust `pub fn fix_album_title`. -/
def fix_album_title (dirty : List Char) : List Char :=
  fix_common dirty

/-- Rust `pub fn fix_track_title`. -/
def fix_track_title (dirty : List Char) : List Char :=
  fix_common dirty

/-- Rust `pub fn fix_artists_string`: `vec![fix_common(dirty)]`. -/
def fix_artists_string (dirty : List Char) : List (List Char) :=
  [fix_common dirty]

/-- String-level wrapper for stating claims on string literals. -/
def fix_common_str (s : String) : String :=
  ⟨fix_common s.data⟩

/-- String-level wrapper of `fix_artists_string`. -/
def fix_artists_str (s : String) : List String :=
  (fix_artists_string s.data).map (fun l => ⟨l⟩)

/-- No suffix of `l` starts with `(19|20)[0-9]{2}` followed by a punctuation
character.  The year pattern has a mandatory trailing punctuation bound, so
such a string contains no `YEAR_REGEX` match at all. -/
def yearFree : List Char → Bool
  | [] => true
  | c :: rest => (yearCore (c :: rest)).isNone && yearFree rest

/-- Predicate: `l` has no two consecutive whitespace characters. -/
def noSpaceRun : List Char → Bool
  | a :: b :: t => (!(isSpaceChar a && isSpaceChar b)) && noSpaceRun (b :: t)
  | _ => true

/-- Predicate: the first character of `l`, if any, is not whitespace. -/
def noLeadSpace : List Char → Bool
  | [] => true
  | c :: _ => !isSpaceChar c

/-- Whitespace-normal: no internal whitespace runs, no leading whitespace and
no trailing whitespace. -/
def wsNormalized (l : List Char) : Bool :=
  noSpaceRun l && noLeadSpace l && noLeadSpace l.reverse

theorem yearFree_head {l : List Char} (h : yearFree l = true) : yearCore l = none := by
  cases l with
  | nil => rfl
  | cons c rest =>
    simp [yearFree, Option.isNone_iff_eq_none] at h
    exact h.1

theorem yearFree_tail {c : Char} {rest : List Char} (h : yearFree (c :: rest) = true) :
    yearFree rest = true := by
  simp [yearFree] at h
  exact h.2

theorem yearMatchAt_eq_none {l : List Char} (h : yearFree l = true) :
    yearMatchAt l = none := by
  cases l with
  | nil => rfl
  | cons c rest =>
    have h1 : yearCore (c :: rest) = none := yearFree_head h
    have h3 : yearCore rest = none := yearFree_head (yearFree_tail h)
    simp [yearMatchAt, h1, h3]

theorem replaceAllAux_yearFree_id (fuel : Nat) :
    ∀ l : List Char, yearFree l = true → replaceAllAux yearMatchAt fuel l = l := by
  induction fuel with
  | zero => intro l _; cases l <;> rfl
  | succ n ih =>
    intro l h
    cases l with
    | nil => rfl
    | cons c rest =>
      simp [replaceAllAux, yearMatchAt_eq_none h, ih rest (yearFree_tail h)]

theorem remove_year_of_yearFree {l : List Char} (h : yearFree l = true) :
    remove_year_annotation l = l :=
  replaceAllAux_yearFree_id l.length l h

theorem noLeadSpace_collapseWsAux_true (l : List Char) :
    noLeadSpace (collapseWsAux true l) = true := by
  induction l with
  | nil => rfl
  | cons c rest ih =>
    cases hc : isSpaceChar c with
    | true => simpa [collapseWsAux, hc] using ih
    | false => simp [collapseWsAux, hc, noLeadSpace]

theorem noSpaceRun_cons {a : Char} {l : List Char} (h1 : noSpaceRun l = true)
    (h2 : isSpaceChar a = false ∨ noLeadSpace l = true) :
    noSpaceRun (a :: l) = true := by
  cases l with
  | nil => rfl
  | cons b t =>
    simp [noSpaceRun, h1]
    rcases h2 with h | h
    · simp [h]
    · simp [noLeadSpace] at h
      simp [h]

theorem noSpaceRun_collapseWsAux (b : Bool) (l : List Char) :
    noSpaceRun (collapseWsAux b l) = true := by
  induction l generalizing b with
  | nil => rfl
  | cons c rest ih =>
    cases hc : isSpaceChar c with
    | false =>
      simp only [collapseWsAux, hc, Bool.false_eq_true, if_false]
      exact noSpaceRun_cons (ih false) (Or.inl hc)
    | true =>
      cases b with
      | true => simpa [collapseWsAux, hc] using ih true
      | false =>
        simp only [collapseWsAux, hc, if_true, Bool.false_eq_true, if_false]
        exact noSpaceRun_cons (ih true) (Or.inr (noLeadSpace_collapseWsAux_true rest))

theorem noLeadSpace_dropWhile (l : List Char) :
    noLeadSpace (l.dropWhile isSpaceChar) = true := by
  induction l with
  | nil => rfl
  | cons c rest ih =>
    cases hc : isSpaceChar c with
    | true => simpa [List.dropWhile_cons, hc] using ih
    | false => simp [List.dropWhile_cons, hc, noLeadSpace]

theorem noSpaceRun_tail {a : Char} {l : List Char} (h : noSpaceRun (a :: l) = true) :
    noSpaceRun l = true := by
  cases l with
  | nil => rfl
  | cons b t =>
    simp [noSpaceRun] at h
    exact h.2

theorem noSpaceRun_dropWhile {l : List Char} (h : noSpaceRun l = true) :
    noSpaceRun (l.dropWhile isSpaceChar) = true := by
  induction l with
  | nil => exact h
  | cons c rest ih =>
    cases hc : isSpaceChar c with
    | true =>
      simp only [List.dropWhile_cons, hc, if_true]
      exact ih (noSpaceRun_tail h)
    | false => simpa [List.dropWhile_cons, hc] using h

theorem noSpaceRun_append_left {l t : List Char} (h : noSpaceRun (l ++ t) = true) :
    noSpaceRun l = true := by
  induction l with
  | nil => rfl
  | cons a rest ih =>
    cases rest with
    | nil => rfl
    | cons b r =>
      simp only [List.cons_append] at h
      simp only [noSpaceRun] at h ⊢
      simp only [Bool.and_eq_true] at h ⊢
      exact ⟨h.1, ih (by simpa using h.2)⟩

theorem stripTrailWs_append (l : List Char) :
    stripTrailWs l ++ (l.reverse.takeWhile isSpaceChar).reverse = l := by
  simp only [stripTrailWs]
  rw [← List.reverse_append, List.takeWhile_append_dropWhile, List.reverse_reverse]

theorem noLeadSpace_of_append {l t : List Char} (h : noLeadSpace (l ++ t) = true) :
    noLeadSpace l = true := by
  cases l with
  | nil => rfl
  | cons a r => simpa [noLeadSpace] using h

theorem wsNormalized_rrw (l : List Char) :
    wsNormalized ( remove_redundant_whitespace l) = true := by
  have h1 : noSpaceRun (collapseWs l) = true := noSpaceRun_collapseWsAux false l
  have h2 : noSpaceRun (stripLeadWs (collapseWs l)) = true := noSpaceRun_dropWhile h1
  have h2l : noLeadSpace (stripLeadWs (collapseWs l)) = true :=
    noLeadSpace_dropWhile (collapseWs l)
  have happ := stripTrailWs_append (stripLeadWs (collapseWs l))
  have h3 : noSpaceRun (stripTrailWs (stripLeadWs (collapseWs l))) = true :=
    noSpaceRun_append_left (happ ▸ h2)
  have h3l : noLeadSpace (stripTrailWs (stripLeadWs (collapseWs l))) = true :=
    noLeadSpace_of_append (happ ▸ h2l)
  have h3r : noLeadSpace (stripTrailWs (stripLeadWs (collapseWs l))).reverse = true := by
    simp only [stripTrailWs, List.reverse_reverse]
    exact noLeadSpace_dropWhile _
  simp [ remove_redundant_whitespace, wsNormalized, h3, h3l, h3r]

/-- Sanity: the first unit test of the crate, `fix_album_title_1`. -/
theorem fix_album_title_unit_test_1 :
    fix_album_title ("Tyler, The Creator - IGOR (2019) Mp3 (320 kbps)".data) =
      "Tyler, The Creator - IGOR".data := by decide

/-- Sanity: the second unit test of the crate, `fix_album_title_2`. -/
theorem fix_album_title_unit_test_2 :
    fix_album_title ("Tyler, The Creator - IGOR (2019) [Mp3] (320 kbps)".data) =
      "Tyler, The Creator - IGOR".data := by decide

/-- Sanity: pure whitespace normalization and the empty string. -/
theorem fix_common_ws_examples :
    fix_common_str "  Artist   -   Song  Title  " = "Artist - Song Title" ∧
    fix_common_str "" = "" := by
  exact ⟨by decide, by decide⟩

/-- C1: the pipeline is NOT idempotent.  On `"320  kbps"` (two spaces) the
bitrate pattern finds no match — the compiled regex demands exactly one
whitespace character before `kbps` — so the first pass only collapses the two
spaces into one, producing `"320 kbps"`, which the second pass then removes
entirely.  Hence `clean_common (clean_common s) ≠ clean_common s` there. -/
theorem c1_not_idempotent :
    fix_common_str "320  kbps" = "320 kbps" ∧
    fix_common_str (fix_common_str "320  kbps") = "" ∧
    fix_common_str (fix_common_str "320  kbps") ≠ fix_common_str "320  kbps" := by
  exact ⟨by decide, by decide, by decide⟩

/-- C2: bitrate removal evaluated at the spec's three inputs.  `"320 kbps"` is
removed, but `"320kbps"` and `"320KBPS"` are returned unchanged: the stray `]`
in `BITRATE_REGEX` makes the whitespace between the digits and `kbps`
mandatory, contradicting the claim (and the crate's own doc comment, which
gives `(128kbps)` as a bitrate annotation). -/
theorem c2_bitrate_eval :
    fix_common_str "320 kbps" = "" ∧
    fix_common_str "320kbps" = "320kbps" ∧
    fix_common_str "320KBPS" = "320KBPS" ∧
    fix_common_str "(128kbps)" = "(128kbps)" := by
  exact ⟨by decide, by decide, by decide, by decide⟩

/-- C3: the combined annotation `"(Mp3 320kbps)"` is NOT fully stripped.  The
mp3 stage consumes `"(Mp3 "` (including the space that the bitrate pattern
needs), and `"320kbps"` without interior whitespace never matches the bitrate
pattern, so the output is `"320kbps)"` rather than `""`. -/
theorem c3_combined_not_stripped :
    fix_common_str "(Mp3 320kbps)" = "320kbps)" ∧
    fix_common_str "(Mp3 320kbps)" ≠ "" := by
  exact ⟨by decide, by decide⟩

/-- C4: year removal requires punctuation framing on the trailing side.  If no
suffix of the input starts with `(19|20)` plus two digits followed by a
punctuation character (`yearFree`), the year stage returns its input unchanged;
a framed year such as `"(2019)"` is removed, while bare years as in
`"Released 2019 album"` and `"Song 2019"` are preserved verbatim. -/
theorem c4_year_requires_framing :
    (∀ l : List Char, yearFree l = true → remove_year_annotation l = l) ∧
    fix_common_str "(2019)" = "" ∧
    fix_common_str "Released 2019 album" = "Released 2019 album" ∧
    fix_common_str "Song 2019" = "Song 2019" := by
  refine ⟨fun l h => remove_year_of_yearFree h, by decide, by decide, by decide⟩

/-- Witness for C4: the universal part applied at the concrete bare-year input
`"Song 2019"`, whose `yearFree` hypothesis is discharged by evaluation. -/
theorem c4_year_requires_framing_witness :
    yearFree ("Song 2019".data) = true ∧
    remove_year_annotation ("Song 2019".data) = "Song 2019".data :=
  ⟨by decide, c4_year_requires_framing.1 ("Song 2019".data) (by decide)⟩

/-- C5: for every input, `clean_common` returns a whitespace-normal string —
no leading whitespace, no trailing whitespace, and no two consecutive
whitespace characters (whitespace being the source's `[[:space:]]` class). -/
theorem c5_whitespace_normal (l : List Char) : wsNormalized (fix_common l) = true :=
  wsNormalized_rrw _

/-- C6: `clean_artists` always returns exactly one element, and that element
is `clean_common` of the input; likewise at the string level. -/
theorem c6_artists_singleton :
    (∀ l : List Char, fix_artists_string l = [fix_common l] ∧
      (fix_artists_string l).length = 1) ∧
    (∀ s : String, fix_artists_str s = [fix_common_str s]) :=
  ⟨fun _ => ⟨rfl, rfl⟩, fun _ => rfl⟩

/-- C7: format-label removal is case-insensitive: `"MP3"`, `"mp3"` and `"Mp3"`
are all removed as standalone labels, framed or not. -/
theorem c7_mp3_case_insensitive :
    fix_common_str "MP3" = "" ∧
    fix_common_str "mp3" = "" ∧
    fix_common_str "Mp3" = "" ∧
    fix_common_str "[Mp3]" = "" ∧
    fix_common_str "(mp3)" = "" := by
  exact ⟨by decide, by decide, by decide, by decide, by decide⟩

/-- C8: `clean_common` is exactly the sequential composition of the four
stages in the order year removal, mp3 removal, bitrate removal, whitespace
normalization. -/
theorem c8_pipeline_order (l : List Char) :
    fix_common l =
      remove_redundant_whitespace
        ( remove_bitrate_annotation ( remove_mp3_format_label
          ( remove_year_annotation l))) :=
  rfl

/-- C9: the year pattern has no left digit boundary, so the `"2019)"` inside
`"52019)"` is replaced by a space, truncating the larger number to `"5"`. -/
theorem c9_no_left_digit_boundary :
    fix_common_str "52019)" = "5" := by decide

/-- C10: each match consumes at most one framing character per side, so
doubly-bracketed annotations leave bracket residue:
`clean_common "((2019))"` is `"( )"`, not the empty string. -/
theorem c10_bracket_residue :
    fix_common_str "((2019))" = "( )" ∧
    fix_common_str "((2019))" ≠ "" := by
  exact ⟨by decide, by decide⟩

end MusicMeta
